import Mathlib

/-!
Shallow embedding of the wagering-game session engine of this repository
(src/darts.py, src/coin.py, src/football.py, src/main.py).

Registries (`context.bot_data` dicts) are modelled as association lists with
Python-dict semantics: lookup of the first matching key, insertion replacing
an existing binding, deletion removing the binding.  Balances (floats in the
source) are modelled as rationals.  Randomness (Telegram dice values,
`random.random()`) and fresh message ids are explicit inputs.  Each handler
is a function from the pre-state to either an error (the source's early
`return` after an error message, leaving global state untouched) or the
post-state.
-/

namespace WK

/-- Python dict lookup on an association list (first binding wins). -/
def dget {α β : Type} [DecidableEq α] : List (α × β) → α → Option β
  | [], _ => none
  | (k, v) :: t, k2 => if k = k2 then some v else dget t k2

/-- Python `del d[k]`: remove the binding of `k`. -/
def derase {α β : Type} [DecidableEq α] : List (α × β) → α → List (α × β)
  | [], _ => []
  | (k, v) :: t, k2 => if k = k2 then derase t k2 else (k, v) :: derase t k2

/-- Python `d[k] = v`: bind `k` to `v`, replacing any existing binding. -/
def dinsert {α β : Type} [DecidableEq α] (d : List (α × β)) (k : α) (v : β) :
    List (α × β) :=
  (k, v) :: derase d k

theorem dget_dinsert_self {α β : Type} [DecidableEq α] (d : List (α × β)) (k : α) (v : β) :
    dget (dinsert d k v) k = some v := by
  simp [dinsert, dget]

theorem dget_derase_self {α β : Type} [DecidableEq α] (d : List (α × β)) (k : α) :
    dget (derase d k) k = none := by
  induction d with
  | nil => simp [derase, dget]
  | cons h t ih =>
    obtain ⟨k1, v1⟩ := h
    by_cases hk : k1 = k
    · simpa [derase, hk] using ih
    · simp [derase, hk, dget, ih]

theorem dget_derase_ne {α β : Type} [DecidableEq α] (d : List (α × β)) (k k2 : α)
    (h : k ≠ k2) : dget (derase d k) k2 = dget d k2 := by
  induction d with
  | nil => simp [derase]
  | cons hd t ih =>
    obtain ⟨k1, v1⟩ := hd
    by_cases hk : k1 = k
    · subst hk
      simp [derase, dget, h, ih]
    · simp only [derase, if_neg hk, dget]
      by_cases hk2 : k1 = k2
      · simp [hk2]
      · simp [hk2, ih]

theorem dget_dinsert_ne {α β : Type} [DecidableEq α] (d : List (α × β)) (k k2 : α) (v : β)
    (h : k ≠ k2) : dget (dinsert d k v) k2 = dget d k2 := by
  simp [dinsert, dget, h, dget_derase_ne d k k2 h]

theorem dget_derase_none {α β : Type} [DecidableEq α] (d : List (α × β)) (k k2 : α)
    (h : dget d k2 = none) : dget (derase d k) k2 = none := by
  by_cases hk : k = k2
  · subst hk; exact dget_derase_self d k
  · rw [dget_derase_ne d k k2 hk]; exact h

/-- A competing side within a session (`'player1'` / `'player2'`). -/
inductive Slot
  | p1
  | p2
deriving DecidableEq

/-- A participant slot value: a human user id or the synthetic `'bot'`. -/
inductive Player
  | bot
  | human (id : Nat)
deriving DecidableEq

/-- Game mode strings `'normal'` / `'double'` / `'crazy'`. -/
inductive Mode
  | normal
  | double
  | crazy
deriving DecidableEq

/-- Coin faces `'heads'` / `'tails'`. -/
inductive Side
  | heads
  | tails
deriving DecidableEq

/-- The session key tuple `(chat_id, player1, player2-or-bot)`. -/
abbrev GameKey := Nat × Nat × Player

/-- An active darts/football session (the `game` dict of src/darts.py). -/
structure Game where
  player1 : Nat
  player2 : Player
  mode : Mode
  pointsToWin : Nat
  bet : Rat
  score1 : Nat
  score2 : Nat
  currentPlayer : Slot
  rolls1 : List Nat
  rolls2 : List Nat
  rollsNeeded : Nat
  rollCount1 : Nat
  rollCount2 : Nat
  roundNumber : Nat
  messageId : Option Nat
deriving DecidableEq

/-- A pending challenge entry (`context.bot_data['pending_challenges'][id]`). -/
structure Challenge where
  initiator : Nat
  challenged : Nat
  mode : Mode
  pointsToWin : Nat
  bet : Rat
deriving DecidableEq

/-- A completed-session summary (`context.bot_data['last_games'][chat][user]`). -/
structure LastGame where
  opponent : Player
  mode : Mode
  pointsToWin : Nat
  bet : Rat
deriving DecidableEq

/-- An active coin-flip game (`context.bot_data['coin_games'][(chat, user)]`). -/
structure CoinGame where
  bet : Rat
  choice : Side
  matchMessageId : Nat
deriving DecidableEq

/-- The darts setup dict (`context.user_data['dart_setup']`). -/
structure DartSetup where
  initiator : Nat
  bet : Rat
  state : String
  messageId : Option Nat
deriving DecidableEq

/-- The coin setup dict (`context.user_data['coin_setup']`). -/
structure CoinSetup where
  initiator : Nat
  bet : Rat
  choice : Option Side
  messageId : Option Nat
deriving DecidableEq

/-- Per-user `context.user_data` fields used by the modelled handlers.
`diceSetupMsg` models `context.user_data['dice_setup']['message_id']`
checked by the ownership wrapper's fallback branch. -/
structure UserData where
  dartSetup : Option DartSetup
  dartMode : Option Mode
  dartPoints : Option Nat
  expectingUsername : Bool
  coinSetup : Option CoinSetup
  diceSetupMsg : Option Nat
deriving DecidableEq

/-- Process-wide mutable state: the user-balance table (src/database) and the
`context.bot_data` registries. -/
structure St where
  balances : List (Nat × Rat)
  games : List (GameKey × Game)
  userGames : List ((Nat × Nat) × GameKey)
  lastGames : List (Nat × List (Nat × LastGame))
  pendingChallenges : List (Nat × Challenge)
  coinGames : List ((Nat × Nat) × CoinGame)
deriving DecidableEq

/-- `get_user_balance` (absent accounts read as 0; the claims only involve
registered users). -/
def get_user_balance (s : St) (uid : Nat) : Rat :=
  (dget s.balances uid).getD 0

/-- `update_user_balance`. -/
def update_user_balance (s : St) (uid : Nat) (v : Rat) : St :=
  { s with balances := dinsert s.balances uid v }

/-- `user_exists`: the account is present in the balance table. -/
def user_exists (s : St) (uid : Nat) : Bool :=
  (dget s.balances uid).isSome

/-- `context.bot_data['last_games'].get(chat, {}).get(uid)`. -/
def getLastGame (s : St) (chat uid : Nat) : Option LastGame :=
  match dget s.lastGames chat with
  | none => none
  | some m => dget m uid

/-- `bot_data.setdefault('last_games', {}).setdefault(chat, {})[uid] = lg`. -/
def setLastGame (s : St) (chat uid : Nat) (lg : LastGame) : St :=
  let m := (dget s.lastGames chat).getD []
  { s with lastGames := dinsert s.lastGames chat (dinsert m uid lg) }

/-- Structured rejection kinds for the handlers' early-return paths. -/
inductive Err
  | alreadyInGame
  | noActiveGame
  | gameDataMissing
  | staleAnchor
  | matchOver
  | notAPlayer
  | wrongRound
  | notYourTurn
  | challengeNotFound
  | notChallenged
  | eitherBusy
  | noPreviousGame
  | opponentBusy
  | opponentUnderfunded
  | selfChallenge
  | insufficientBalance
  | missingSetup
  | notYourSetup
  | invalidBet
  | notRegistered
  | noGameOrSetup
deriving DecidableEq

/-- The other competing slot. -/
def otherSlot : Slot → Slot
  | .p1 => .p2
  | .p2 => .p1

/-- `game['roll_count'][slot]`. -/
def rollCount (g : Game) : Slot → Nat
  | .p1 => g.rollCount1
  | .p2 => g.rollCount2

/-- `game[slot]`: the participant occupying a slot. -/
def slotPlayer (g : Game) : Slot → Player
  | .p1 => .human g.player1
  | .p2 => g.player2

/-- `game['rolls'][slot].append(v); game['roll_count'][slot] += 1`. -/
def addRoll (g : Game) : Slot → Nat → Game
  | .p1, v => { g with rolls1 := g.rolls1 ++ [v], rollCount1 := g.rollCount1 + 1 }
  | .p2, v => { g with rolls2 := g.rolls2 ++ [v], rollCount2 := g.rollCount2 + 1 }

/-- `game['rolls'][slot].extend(vs); game['roll_count'][slot] += len(vs)`. -/
def extendRolls (g : Game) : Slot → List Nat → Game
  | .p1, vs => { g with rolls1 := g.rolls1 ++ vs, rollCount1 := g.rollCount1 + vs.length }
  | .p2, vs => { g with rolls2 := g.rolls2 ++ vs, rollCount2 := g.rollCount2 + vs.length }

/-- src/darts.py lines 22-27: the per-round computed scores of both slots. -/
def round_scores (mode : Mode) (rolls1 rolls2 : List Nat) : Nat × Nat :=
  match mode with
  | .normal => (rolls1.headD 0, rolls2.headD 0)
  | .double => (rolls1.sum, rolls2.sum)
  | .crazy => (7 - rolls1.headD 0, 7 - rolls2.headD 0)

/-- src/darts.py lines 29-32: increment the round winner's score (ties score
nothing). -/
def scored_game (g : Game) : Game :=
  if (round_scores g.mode g.rolls1 g.rolls2).1 > (round_scores g.mode g.rolls1 g.rolls2).2 then
    { g with score1 := g.score1 + 1 }
  else if (round_scores g.mode g.rolls1 g.rolls2).2 > (round_scores g.mode g.rolls1 g.rolls2).1 then
    { g with score2 := g.score2 + 1 }
  else g

/-- src/darts.py line 47-48: `'player1' if scores['player1'] > scores['player2']
else 'player2'`, resolved to the occupying participant. -/
def match_winner (g : Game) : Player :=
  if g.score1 > g.score2 then .human g.player1 else g.player2

/-- src/darts.py lines 17-19: reset the round buffers after an incomplete-roll
error. -/
def reset_game (g : Game) : Game :=
  { g with rolls1 := [], rolls2 := [], rollCount1 := 0, rollCount2 := 0,
           currentPlayer := Slot.p1 }

/-- src/darts.py lines 96-104: clear buffers, reset the turn, advance the round
number and anchor the fresh prompt. -/
def next_round_game (g1 : Game) (fresh : Nat) : Game :=
  { g1 with rolls1 := [], rolls2 := [], rollCount1 := 0, rollCount2 := 0,
            currentPlayer := Slot.p1, roundNumber := g1.roundNumber + 1,
            messageId := some fresh }

/-- src/darts.py lines 46-94, the match-completion branch: credit a human
winner with `bet * 1.92 + bet` (no credit when the synthetic opponent wins),
record last-game summaries for every human participant, then delete the
per-participant pointers and the session entry. -/
def settle_match (s : St) (chat : Nat) (key : GameKey) (g1 : Game) : St :=
  let prize : Rat := g1.bet * 1.92
  let s1 :=
    match match_winner g1 with
    | .human w => update_user_balance s w (get_user_balance s w + prize + g1.bet)
    | .bot => s
  let lgP1 : LastGame := ⟨g1.player2, g1.mode, g1.pointsToWin, g1.bet⟩
  let lgP2 : LastGame := ⟨Player.human g1.player1, g1.mode, g1.pointsToWin, g1.bet⟩
  let s2 :=
    match g1.player2 with
    | .human p2id => setLastGame (setLastGame s1 chat g1.player1 lgP1) chat p2id lgP2
    | .bot => setLastGame s1 chat g1.player1 ⟨Player.bot, g1.mode, g1.pointsToWin, g1.bet⟩
  let s3 :=
    match g1.player2 with
    | .human p2id => { s2 with userGames := derase s2.userGames (chat, p2id) }
    | .bot => s2
  let s4 := { s3 with userGames := derase s3.userGames (chat, g1.player1) }
  { s4 with games := derase s4.games key }

/-- src/darts.py `evaluate_round` (lines 9-104), state effects only.  `chat` is
the handler's `chat_id`; `key` the registry key the game is stored under;
`fresh` the message id of whichever prompt the branch taken issues. -/
def evaluate_round (s : St) (chat : Nat) (key : GameKey) (g : Game) (fresh : Nat) : St :=
  if g.rolls1.length < g.rollsNeeded ∨ g.rolls2.length < g.rollsNeeded then
    { s with games := dinsert s.games key (reset_game g) }
  else
    let g1 := scored_game g
    if max g1.score1 g1.score2 ≥ g1.pointsToWin then settle_match s chat key g1
    else { s with games := dinsert s.games key (next_round_game g1 fresh) }

/-- src/darts.py `start_game_against_bot` (lines 107-144).  `fresh` is the id of
the match-start prompt message. -/
def start_game_against_bot (s : St) (ud : UserData) (chat uid : Nat) (fresh : Nat) :
    Except Err (St × UserData) :=
  if (dget s.userGames (chat, uid)).isSome then .error .alreadyInGame
  else
    match ud.dartSetup, ud.dartMode, ud.dartPoints with
    | some setup, some mode, some points =>
      let key : GameKey := (chat, uid, .bot)
      let g : Game :=
        { player1 := uid, player2 := .bot, mode := mode, pointsToWin := points,
          bet := setup.bet, score1 := 0, score2 := 0, currentPlayer := .p1,
          rolls1 := [], rolls2 := [], rollsNeeded := if mode = .double then 2 else 1,
          rollCount1 := 0, rollCount2 := 0, roundNumber := 1, messageId := some fresh }
      let s1 := { s with games := dinsert s.games key g,
                         userGames := dinsert s.userGames (chat, uid) key }
      let s2 := update_user_balance s1 uid (get_user_balance s1 uid - setup.bet)
      .ok (s2, { ud with dartSetup := none })
    | _, _, _ => .error .missingSetup

/-- src/darts.py line 321: `'player1' if game['player1'] == user_id else
'player2' if game['player2'] == user_id else None`. -/
def playerSlot (g : Game) (uid : Nat) : Option Slot :=
  if g.player1 = uid then some Slot.p1
  else if g.player2 = Player.human uid then some Slot.p2
  else none

/-- src/darts.py `dart_button_handler`, in-game `dart_throw_` branch
(lines 303-377).  `msg` is the clicked message's id (the anchor),
`turnRound` the round number encoded in the callback data, `dice` the external
dice-value stream (head = the human's throw, tail feeds synthetic-opponent
throws), `fresh` the id of the next prompt message. -/
def dart_throw (s : St) (chat uid msg turnRound : Nat) (dice : List Nat) (fresh : Nat) :
    Except Err St :=
  match dget s.userGames (chat, uid) with
  | none => .error .noActiveGame
  | some key =>
    match dget s.games key with
    | none => .error .gameDataMissing
    | some g =>
      if some msg ≠ g.messageId then .error .staleAnchor
      else if max g.score1 g.score2 ≥ g.pointsToWin then .error .matchOver
      else
        match playerSlot g uid with
        | none => .error .notAPlayer
        | some pk =>
          if turnRound ≠ g.roundNumber then .error .wrongRound
          else if pk ≠ g.currentPlayer then .error .notYourTurn
          else
            let g1 := addRoll g pk (dice.headD 1)
            if g1.rollCount1 = g1.rollsNeeded ∧ g1.rollCount2 = g1.rollsNeeded then
              .ok (evaluate_round s chat key g1 fresh)
            else if rollCount g1 pk < g1.rollsNeeded then
              .ok { s with games := dinsert s.games key { g1 with messageId := some fresh } }
            else
              let g2 := { g1 with currentPlayer := otherSlot pk }
              match slotPlayer g2 (otherSlot pk) with
              | .bot =>
                  let botRolls := dice.tail.take (g2.rollsNeeded - rollCount g2 (otherSlot pk))
                  .ok (evaluate_round s chat key (extendRolls g2 (otherSlot pk) botRolls) fresh)
              | .human _ =>
                  .ok { s with games := dinsert s.games key { g2 with messageId := some fresh } }

/-- The resulting global state of a `dart_throw` dispatch: an early error
return leaves state untouched. -/
def dart_throw_run (s : St) (chat uid msg turnRound : Nat) (dice : List Nat)
    (fresh : Nat) : St :=
  match dart_throw s chat uid msg turnRound dice fresh with
  | .ok t => t
  | .error _ => s

/-- src/main.py `with_game_ownership_check` (lines 594-627) with
`use_bot_data=True`, applied to the darts throw branch: when the clicker has an
active game the wrapper first overwrites the stored `message_id` with the
incoming message id, then invokes the handler; otherwise it falls back to the
`dice_setup` check. -/
def wrapped_dart_throw (s : St) (ud : UserData) (chat uid msg turnRound : Nat)
    (dice : List Nat) (fresh : Nat) : Except Err St :=
  let fallback : Except Err St :=
    match ud.diceSetupMsg with
    | some m => if m = msg then dart_throw s chat uid msg turnRound dice fresh
                else .error .noGameOrSetup
    | none => .error .noGameOrSetup
  match dget s.userGames (chat, uid) with
  | some key =>
    match dget s.games key with
    | some g =>
        dart_throw
          { s with games := dinsert s.games key { g with messageId := some msg } }
          chat uid msg turnRound dice fresh
    | none => fallback
  | none => fallback

/-- Resulting state of the wrapped dispatch; note that the wrapper's
`message_id` overwrite persists even when the inner handler rejects. -/
def wrapped_dart_throw_run (s : St) (ud : UserData) (chat uid msg turnRound : Nat)
    (dice : List Nat) (fresh : Nat) : St :=
  match dget s.userGames (chat, uid) with
  | some key =>
    match dget s.games key with
    | some g =>
        dart_throw_run
          { s with games := dinsert s.games key { g with messageId := some msg } }
          chat uid msg turnRound dice fresh
    | none =>
        match ud.diceSetupMsg with
        | some m => if m = msg then dart_throw_run s chat uid msg turnRound dice fresh else s
        | none => s
  | none =>
      match ud.diceSetupMsg with
      | some m => if m = msg then dart_throw_run s chat uid msg turnRound dice fresh else s
      | none => s

/-- src/darts.py `dart_button_handler`, `dart_accept_` branch (lines 380-425).
`uid` is the clicker (responder), `gameId` the challenge id from the callback
data, `fresh` the id of the match-start prompt. -/
def dart_accept (s : St) (ud : UserData) (chat uid gameId : Nat) (fresh : Nat) :
    Except Err (St × UserData) :=
  match dget s.pendingChallenges gameId with
  | none => .error .challengeNotFound
  | some ch =>
    if uid ≠ ch.challenged then .error .notChallenged
    else if (dget s.userGames (chat, ch.initiator)).isSome ∨
            (dget s.userGames (chat, uid)).isSome then .error .eitherBusy
    else
      let key : GameKey := (chat, ch.initiator, .human uid)
      let g : Game :=
        { player1 := ch.initiator, player2 := .human uid, mode := ch.mode,
          pointsToWin := ch.pointsToWin, bet := ch.bet, score1 := 0, score2 := 0,
          currentPlayer := .p1, rolls1 := [], rolls2 := [],
          rollsNeeded := if ch.mode = .double then 2 else 1,
          rollCount1 := 0, rollCount2 := 0, roundNumber := 1, messageId := some fresh }
      let s1 := { s with games := dinsert s.games key g }
      let ug2 := dinsert (dinsert s1.userGames (chat, ch.initiator) key) (chat, uid) key
      let s2 := { s1 with userGames := ug2 }
      let s3 := update_user_balance s2 ch.initiator (get_user_balance s2 ch.initiator - ch.bet)
      let s4 := update_user_balance s3 uid (get_user_balance s3 uid - ch.bet)
      let s5 := { s4 with pendingChallenges := derase s4.pendingChallenges gameId }
      .ok (s5, { ud with dartSetup := none })

/-- Resulting state of a `dart_accept` dispatch. -/
def dart_accept_run (s : St) (ud : UserData) (chat uid gameId : Nat) (fresh : Nat) : St :=
  match dart_accept s ud chat uid gameId fresh with
  | .ok (t, _) => t
  | .error _ => s

/-- src/darts.py `dart_button_handler`, `dart_play_again` branch
(lines 438-476). -/
def dart_play_again (s : St) (ud : UserData) (chat uid : Nat) (fresh : Nat) :
    Except Err (St × UserData) :=
  match getLastGame s chat uid with
  | none => .error .noPreviousGame
  | some lg =>
    match lg.opponent with
    | .bot =>
      let ud1 := { ud with dartMode := some lg.mode, dartPoints := some lg.pointsToWin,
                           dartSetup := some ⟨uid, lg.bet, "mode_selection", none⟩ }
      start_game_against_bot s ud1 chat uid fresh
    | .human oppId =>
      if (dget s.userGames (chat, oppId)).isSome then .error .opponentBusy
      else
        let gid := s.pendingChallenges.length + 1
        let ch : Challenge := ⟨uid, oppId, lg.mode, lg.pointsToWin, lg.bet⟩
        .ok ({ s with pendingChallenges := dinsert s.pendingChallenges gid ch }, ud)

/-- src/darts.py `dart_button_handler`, `dart_double` branch (lines 478-527). -/
def dart_double (s : St) (ud : UserData) (chat uid : Nat) (fresh : Nat) :
    Except Err (St × UserData) :=
  match getLastGame s chat uid with
  | none => .error .noPreviousGame
  | some lg =>
    let newBet := lg.bet * 2
    match lg.opponent with
    | .bot =>
      if newBet > get_user_balance s uid then .error .insufficientBalance
      else
        let ud1 := { ud with dartMode := some lg.mode, dartPoints := some lg.pointsToWin,
                             dartSetup := some ⟨uid, newBet, "mode_selection", none⟩ }
        start_game_against_bot s ud1 chat uid fresh
    | .human oppId =>
      if newBet > get_user_balance s uid ∨ newBet > get_user_balance s oppId then
        .error .insufficientBalance
      else if (dget s.userGames (chat, oppId)).isSome then .error .opponentBusy
      else
        let gid := s.pendingChallenges.length + 1
        let ch : Challenge := ⟨uid, oppId, lg.mode, lg.pointsToWin, newBet⟩
        .ok ({ s with pendingChallenges := dinsert s.pendingChallenges gid ch }, ud)

/-- src/darts.py `dart_text_handler` (lines 530-577): propose a challenge to a
resolved user id (the username-to-id lookup is external).  Returns the
allocated challenge id `len(pending_challenges) + 1`. -/
def dart_propose_challenge (s : St) (ud : UserData) (chat uid challengedId : Nat) :
    Except Err (St × UserData × Nat) :=
  match ud.dartSetup, ud.dartMode, ud.dartPoints with
  | some setup, some mode, some points =>
    if ¬ (ud.expectingUsername ∧ setup.initiator = uid) then .error .notYourSetup
    else if challengedId = uid then .error .selfChallenge
    else if get_user_balance s challengedId < setup.bet then .error .opponentUnderfunded
    else if (dget s.userGames (chat, challengedId)).isSome then .error .opponentBusy
    else
      let gid := s.pendingChallenges.length + 1
      let ch : Challenge := ⟨uid, challengedId, mode, points, setup.bet⟩
      .ok ({ s with pendingChallenges := dinsert s.pendingChallenges gid ch },
           { ud with expectingUsername := false }, gid)
  | _, _, _ => .error .notYourSetup

/-- src/coin.py line 8. -/
def PLAYER_WIN_PROB : Rat := 0.4

/-- The coin face that is not `c`. -/
def oppositeSide : Side → Side
  | .heads => .tails
  | .tails => .heads

/-- src/coin.py lines 139-143: the flip result is derived from the win/lose
draw `r` (`random.random()`), not flipped independently. -/
def coin_result (choice : Side) (r : Rat) : Side :=
  if r < PLAYER_WIN_PROB then choice else oppositeSide choice

/-- src/coin.py `coin_command` (lines 16-54), validation chain and setup
creation.  `amount` is the parsed bet argument, `fresh` the setup prompt id. -/
def coin_command (s : St) (ud : UserData) (chat uid : Nat) (amount : Rat)
    (fresh : Nat) : Except Err (St × UserData) :=
  if (dget s.coinGames (chat, uid)).isSome then .error .alreadyInGame
  else if amount ≤ 0 then .error .invalidBet
  else if ¬ user_exists s uid then .error .notRegistered
  else if amount > get_user_balance s uid then .error .insufficientBalance
  else
    let setup : CoinSetup :=
      { initiator := uid, bet := amount, choice := none, messageId := some fresh }
    .ok (s, { ud with coinSetup := some setup })

/-- src/coin.py `coin_button_handler`, `coin_bot` branch (lines 110-130):
registers the coin game (with no busy re-check against any registry). -/
def coin_bot (s : St) (ud : UserData) (chat uid msg matchMsg : Nat) :
    Except Err (St × UserData) :=
  match ud.coinSetup with
  | none => .error .notYourSetup
  | some setup =>
    if setup.initiator ≠ uid ∨ setup.messageId ≠ some msg then .error .notYourSetup
    else
      match setup.choice with
      | none => .error .missingSetup
      | some choice =>
        let cg : CoinGame := { bet := setup.bet, choice := choice, matchMessageId := matchMsg }
        .ok ({ s with coinGames := dinsert s.coinGames (chat, uid) cg },
             { ud with coinSetup := none })

/-- Whether a dispatch succeeded. -/
def isOkResult {α : Type} : Except Err α → Bool
  | .ok _ => true
  | .error _ => false

/-- Resulting state of a `start_game_against_bot` dispatch. -/
def bot_start_run (s : St) (ud : UserData) (chat uid : Nat) (fresh : Nat) : St :=
  match start_game_against_bot s ud chat uid fresh with
  | .ok (t, _) => t
  | .error _ => s

/-- Resulting state of a `dart_play_again` dispatch. -/
def play_again_run (s : St) (ud : UserData) (chat uid : Nat) (fresh : Nat) : St :=
  match dart_play_again s ud chat uid fresh with
  | .ok (t, _) => t
  | .error _ => s

/-- Resulting state of a `dart_propose_challenge` dispatch. -/
def propose_run (s : St) (ud : UserData) (chat uid challengedId : Nat) : St :=
  match dart_propose_challenge s ud chat uid challengedId with
  | .ok (t, _, _) => t
  | .error _ => s

/-- The id a `dart_propose_challenge` dispatch allocates (0 on rejection). -/
def propose_id (s : St) (ud : UserData) (chat uid challengedId : Nat) : Nat :=
  match dart_propose_challenge s ud chat uid challengedId with
  | .ok (_, _, gid) => gid
  | .error _ => 0

section Lemmas

theorem scored_game_player1 (g : Game) : (scored_game g).player1 = g.player1 := by
  unfold scored_game; split <;> try rfl
  split <;> rfl

theorem scored_game_player2 (g : Game) : (scored_game g).player2 = g.player2 := by
  unfold scored_game; split <;> try rfl
  split <;> rfl

theorem scored_game_mode (g : Game) : (scored_game g).mode = g.mode := by
  unfold scored_game; split <;> try rfl
  split <;> rfl

theorem scored_game_points (g : Game) : (scored_game g).pointsToWin = g.pointsToWin := by
  unfold scored_game; split <;> try rfl
  split <;> rfl

theorem scored_game_bet (g : Game) : (scored_game g).bet = g.bet := by
  unfold scored_game; split <;> try rfl
  split <;> rfl

theorem scored_game_round (g : Game) : (scored_game g).roundNumber = g.roundNumber := by
  unfold scored_game; split <;> try rfl
  split <;> rfl

theorem bal_update_self (s : St) (uid : Nat) (v : Rat) :
    get_user_balance (update_user_balance s uid v) uid = v := by
  simp [get_user_balance, update_user_balance, dget_dinsert_self]

theorem bal_update_ne (s : St) (uid u : Nat) (v : Rat) (h : uid ≠ u) :
    get_user_balance (update_user_balance s uid v) u = get_user_balance s u := by
  simp [get_user_balance, update_user_balance, dget_dinsert_ne _ _ _ _ h]

theorem setLastGame_balances (s : St) (c u : Nat) (lg : LastGame) :
    (setLastGame s c u lg).balances = s.balances := rfl

theorem setLastGame_games (s : St) (c u : Nat) (lg : LastGame) :
    (setLastGame s c u lg).games = s.games := rfl

theorem setLastGame_userGames (s : St) (c u : Nat) (lg : LastGame) :
    (setLastGame s c u lg).userGames = s.userGames := rfl

theorem getLastGame_set_self (s : St) (c u : Nat) (lg : LastGame) :
    getLastGame (setLastGame s c u lg) c u = some lg := by
  unfold getLastGame setLastGame
  simp [dget_dinsert_self]

theorem getLastGame_set_ne (s : St) (c u u2 : Nat) (lg : LastGame) (h : u ≠ u2) :
    getLastGame (setLastGame s c u lg) c u2 = getLastGame s c u2 := by
  unfold getLastGame setLastGame
  simp only [dget_dinsert_self]
  rw [dget_dinsert_ne _ _ _ _ h]
  cases hm : dget s.lastGames c <;> simp [dget]

theorem playerSlot_some (g : Game) (uid : Nat) (pk : Slot)
    (h : playerSlot g uid = some pk) :
    g.player1 = uid ∨ g.player2 = Player.human uid := by
  unfold playerSlot at h
  by_cases h1 : g.player1 = uid
  · exact Or.inl h1
  · by_cases h2 : g.player2 = Player.human uid
    · exact Or.inr h2
    · simp [h1, h2] at h

theorem bal_congr (s t : St) (h : s.balances = t.balances) (u : Nat) :
    get_user_balance s u = get_user_balance t u := by
  simp [get_user_balance, h]

theorem getLastGame_congr (s t : St) (h : s.lastGames = t.lastGames) (c u : Nat) :
    getLastGame s c u = getLastGame t c u := by
  simp [getLastGame, h]

theorem settle_match_balances (s : St) (chat : Nat) (key : GameKey) (g1 : Game) :
    (settle_match s chat key g1).balances =
      (match match_winner g1 with
       | .human w =>
           update_user_balance s w (get_user_balance s w + g1.bet * 1.92 + g1.bet)
       | .bot => s).balances := by
  unfold settle_match
  cases hwm : match_winner g1 <;> cases hp2 : g1.player2 <;>
    simp [hwm, hp2, setLastGame_balances]

theorem settle_match_games_none (s : St) (chat : Nat) (key : GameKey) (g1 : Game) :
    dget (settle_match s chat key g1).games key = none := by
  unfold settle_match
  cases hwm : match_winner g1 <;> cases hp2 : g1.player2 <;>
    simp [hwm, hp2, setLastGame_games, update_user_balance, dget_derase_self]

theorem settle_match_userGames_p1 (s : St) (chat : Nat) (key : GameKey) (g1 : Game) :
    dget (settle_match s chat key g1).userGames (chat, g1.player1) = none := by
  unfold settle_match
  cases hwm : match_winner g1 <;> cases hp2 : g1.player2 <;>
    simp [hwm, hp2, setLastGame_userGames, update_user_balance, dget_derase_self]

theorem settle_match_userGames_p2 (s : St) (chat : Nat) (key : GameKey) (g1 : Game)
    (p2id : Nat) (hp2 : g1.player2 = Player.human p2id) :
    dget (settle_match s chat key g1).userGames (chat, p2id) = none := by
  unfold settle_match
  cases hwm : match_winner g1 <;>
    simp [hwm, hp2, setLastGame_userGames, update_user_balance] <;>
    exact dget_derase_none _ _ _ (dget_derase_self _ _)

theorem settle_match_last_p1 (s : St) (chat : Nat) (key : GameKey) (g1 : Game)
    (hne : ∀ p2id, g1.player2 = Player.human p2id → p2id ≠ g1.player1) :
    getLastGame (settle_match s chat key g1) chat g1.player1 =
      some ⟨g1.player2, g1.mode, g1.pointsToWin, g1.bet⟩ := by
  unfold settle_match
  cases hwm : match_winner g1 <;> cases hp2 : g1.player2 <;>
    simp [hwm, hp2, getLastGame, setLastGame, update_user_balance, dget_dinsert_self] <;>
    (rename_i p2id
     have hne2 := hne p2id hp2
     rw [dget_dinsert_ne _ _ _ _ hne2, dget_dinsert_self])

theorem settle_match_last_p2 (s : St) (chat : Nat) (key : GameKey) (g1 : Game)
    (p2id : Nat) (hp2 : g1.player2 = Player.human p2id) :
    getLastGame (settle_match s chat key g1) chat p2id =
      some ⟨Player.human g1.player1, g1.mode, g1.pointsToWin, g1.bet⟩ := by
  unfold settle_match
  cases hwm : match_winner g1 <;>
    simp [hwm, hp2, getLastGame, setLastGame, update_user_balance, dget_dinsert_self]

theorem scored_game_draw (g : Game)
    (heq : (round_scores g.mode g.rolls1 g.rolls2).1 =
           (round_scores g.mode g.rolls1 g.rolls2).2) :
    scored_game g = g := by
  unfold scored_game
  simp [heq]

theorem evaluate_round_complete (s : St) (chat : Nat) (key : GameKey) (g : Game)
    (fresh : Nat)
    (h1 : g.rollsNeeded ≤ g.rolls1.length) (h2 : g.rollsNeeded ≤ g.rolls2.length)
    (hw : (scored_game g).pointsToWin ≤ max (scored_game g).score1 (scored_game g).score2) :
    evaluate_round s chat key g fresh = settle_match s chat key (scored_game g) := by
  unfold evaluate_round
  have hc : ¬ (g.rolls1.length < g.rollsNeeded ∨ g.rolls2.length < g.rollsNeeded) := by
    omega
  rw [if_neg hc]
  dsimp only
  rw [if_pos hw]

theorem evaluate_round_next (s : St) (chat : Nat) (key : GameKey) (g : Game)
    (fresh : Nat)
    (h1 : g.rollsNeeded ≤ g.rolls1.length) (h2 : g.rollsNeeded ≤ g.rolls2.length)
    (hw : max (scored_game g).score1 (scored_game g).score2 < (scored_game g).pointsToWin) :
    evaluate_round s chat key g fresh =
      { s with games := dinsert s.games key (next_round_game (scored_game g) fresh) } := by
  unfold evaluate_round
  have hc : ¬ (g.rolls1.length < g.rollsNeeded ∨ g.rolls2.length < g.rollsNeeded) := by
    omega
  rw [if_neg hc]
  dsimp only
  rw [if_neg (not_le.mpr hw)]

end Lemmas

/-- Concrete draw-round game for the C7 witness: mode `double`, buffers
`[3, 5]` and `[4, 4]`, both summing to 8. -/
def c7g : Game :=
  { player1 := 7, player2 := Player.bot, mode := Mode.double, pointsToWin := 1,
    bet := 1, score1 := 0, score2 := 0, currentPlayer := Slot.p1,
    rolls1 := [3, 5], rolls2 := [4, 4], rollsNeeded := 2, rollCount1 := 2,
    rollCount2 := 2, roundNumber := 1, messageId := some 10 }

/-- Empty state for the C7 witness. -/
def c7s : St := ⟨[], [], [], [], [], []⟩

/-- Claim C7: a round whose two complete outcome buffers produce equal computed
scores under the active mode rule increments neither score, clears both
buffers and collected-counts, resets the turn to slot 1 and increments the
round number (the stored game keeps `g`'s scores untouched). -/
theorem c7_draw_round (s : St) (chat : Nat) (key : GameKey) (g : Game) (fresh : Nat)
    (h1 : g.rollsNeeded ≤ g.rolls1.length) (h2 : g.rollsNeeded ≤ g.rolls2.length)
    (heq : (round_scores g.mode g.rolls1 g.rolls2).1 =
           (round_scores g.mode g.rolls1 g.rolls2).2)
    (hlive : max g.score1 g.score2 < g.pointsToWin) :
    evaluate_round s chat key g fresh =
      { s with games := dinsert s.games key (next_round_game g fresh) } ∧
    (next_round_game g fresh).score1 = g.score1 ∧
    (next_round_game g fresh).score2 = g.score2 ∧
    (next_round_game g fresh).rolls1 = [] ∧
    (next_round_game g fresh).rolls2 = [] ∧
    (next_round_game g fresh).rollCount1 = 0 ∧
    (next_round_game g fresh).rollCount2 = 0 ∧
    (next_round_game g fresh).currentPlayer = Slot.p1 ∧
    (next_round_game g fresh).roundNumber = g.roundNumber + 1 ∧
    (evaluate_round s chat key g fresh).balances = s.balances := by
  have hsg := scored_game_draw g heq
  have heval := evaluate_round_next s chat key g fresh h1 h2 (by rw [hsg]; exact hlive)
  rw [hsg] at heval
  refine ⟨heval, rfl, rfl, rfl, rfl, rfl, rfl, rfl, rfl, ?_⟩
  rw [heval]

/-- Witness for C7 at the spec's own example (`double`, A = [3,5], B = [4,4]). -/
theorem c7_draw_round_witness :
    (c7g.rollsNeeded ≤ c7g.rolls1.length ∧ c7g.rollsNeeded ≤ c7g.rolls2.length ∧
     (round_scores c7g.mode c7g.rolls1 c7g.rolls2).1 =
       (round_scores c7g.mode c7g.rolls1 c7g.rolls2).2 ∧
     max c7g.score1 c7g.score2 < c7g.pointsToWin) ∧
    evaluate_round c7s 1 (1, 7, Player.bot) c7g 11 =
      { c7s with games := dinsert c7s.games (1, 7, Player.bot) (next_round_game c7g 11) } ∧
    (next_round_game c7g 11).score1 = c7g.score1 ∧
    (next_round_game c7g 11).score2 = c7g.score2 ∧
    (next_round_game c7g 11).rolls1 = [] ∧
    (next_round_game c7g 11).rolls2 = [] ∧
    (next_round_game c7g 11).rollCount1 = 0 ∧
    (next_round_game c7g 11).rollCount2 = 0 ∧
    (next_round_game c7g 11).currentPlayer = Slot.p1 ∧
    (next_round_game c7g 11).roundNumber = c7g.roundNumber + 1 ∧
    (evaluate_round c7s 1 (1, 7, Player.bot) c7g 11).balances = c7s.balances :=
  ⟨⟨by decide, by decide, by decide, by decide⟩,
   c7_draw_round c7s 1 (1, 7, Player.bot) c7g 11 (by decide) (by decide) (by decide)
     (by decide)⟩

/-- Claim C9: in the coin flip, the result equals the chosen side exactly when
the uniform draw is below the fixed constant 0.4, independently of the chosen
side, and otherwise equals the opposite side — the displayed face is derived
from the win/lose decision. -/
theorem c9_coin_flip_result :
    PLAYER_WIN_PROB = 2 / 5 ∧
    ∀ (choice : Side) (r : Rat),
      (coin_result choice r = choice ↔ r < PLAYER_WIN_PROB) ∧
      (¬ r < PLAYER_WIN_PROB → coin_result choice r = oppositeSide choice) := by
  refine ⟨by norm_num [PLAYER_WIN_PROB], ?_⟩
  intro choice r
  by_cases h : r < PLAYER_WIN_PROB
  · simp [coin_result, h]
  · refine ⟨⟨fun hc => ?_, fun hc => absurd hc h⟩, fun _ => by simp [coin_result, h]⟩
    rw [coin_result, if_neg h] at hc
    cases choice <;> simp [oppositeSide] at hc

/-- Witness for C9 at `choice = heads`, `r = 1/2`. -/
theorem c9_coin_flip_witness :
    (coin_result Side.heads (1 / 2) = Side.heads ↔ (1 / 2 : Rat) < PLAYER_WIN_PROB) ∧
    (¬ (1 / 2 : Rat) < PLAYER_WIN_PROB →
      coin_result Side.heads (1 / 2) = oppositeSide Side.heads) :=
  c9_coin_flip_result.2 Side.heads (1 / 2)

/-- Claim C4: the moment a round evaluation brings one slot's round-wins to the
win-target, the match completes: a human winner is credited exactly
`wager * 1.92 + wager` (the loser's balance is untouched; a synthetic-opponent
win credits nothing), a last-game summary is recorded for every human
participant, the session entry and both per-participant pointers are removed,
and a further throw dispatch for the session is a rejected no-op. -/
theorem c4_match_completion (s : St) (chat : Nat) (key : GameKey) (g : Game) (fresh : Nat)
    (h1 : g.rollsNeeded ≤ g.rolls1.length) (h2 : g.rollsNeeded ≤ g.rolls2.length)
    (_hlive : max g.score1 g.score2 < g.pointsToWin)
    (hw : g.pointsToWin ≤ max (scored_game g).score1 (scored_game g).score2)
    (hne : ∀ p2id, g.player2 = Player.human p2id → p2id ≠ g.player1) :
    (∀ w, match_winner (scored_game g) = Player.human w →
        get_user_balance (evaluate_round s chat key g fresh) w =
          get_user_balance s w + g.bet * 1.92 + g.bet ∧
        ∀ u, u ≠ w →
          get_user_balance (evaluate_round s chat key g fresh) u = get_user_balance s u) ∧
    (match_winner (scored_game g) = Player.bot →
        ∀ u, get_user_balance (evaluate_round s chat key g fresh) u = get_user_balance s u) ∧
    getLastGame (evaluate_round s chat key g fresh) chat g.player1 =
      some ⟨g.player2, g.mode, g.pointsToWin, g.bet⟩ ∧
    (∀ p2id, g.player2 = Player.human p2id →
        getLastGame (evaluate_round s chat key g fresh) chat p2id =
          some ⟨Player.human g.player1, g.mode, g.pointsToWin, g.bet⟩) ∧
    dget (evaluate_round s chat key g fresh).games key = none ∧
    dget (evaluate_round s chat key g fresh).userGames (chat, g.player1) = none ∧
    (∀ p2id, g.player2 = Player.human p2id →
        dget (evaluate_round s chat key g fresh).userGames (chat, p2id) = none) ∧
    (∀ msg r dice f2,
        dart_throw_run (evaluate_round s chat key g fresh) chat g.player1 msg r dice f2 =
          evaluate_round s chat key g fresh) := by
  have heval := evaluate_round_complete s chat key g fresh h1 h2
    (by rw [scored_game_points]; exact hw)
  have hne1 : ∀ p2id, (scored_game g).player2 = Player.human p2id →
      p2id ≠ (scored_game g).player1 := by
    intro p2id hp
    rw [scored_game_player2] at hp
    rw [scored_game_player1]
    exact hne p2id hp
  have hUGp1 : dget (evaluate_round s chat key g fresh).userGames (chat, g.player1) = none := by
    rw [heval]
    have := settle_match_userGames_p1 s chat key (scored_game g)
    rwa [scored_game_player1] at this
  refine ⟨?_, ?_, ?_, ?_, ?_, hUGp1, ?_, ?_⟩
  · intro w hwm
    have hb := settle_match_balances s chat key (scored_game g)
    rw [hwm] at hb
    rw [scored_game_bet] at hb
    constructor
    · rw [heval, bal_congr _ _ hb w, bal_update_self]
    · intro u hu
      rw [heval, bal_congr _ _ hb u, bal_update_ne _ _ _ _ (Ne.symm hu)]
  · intro hwm u
    have hb := settle_match_balances s chat key (scored_game g)
    rw [hwm] at hb
    rw [heval, bal_congr _ _ hb u]
  · rw [heval]
    have := settle_match_last_p1 s chat key (scored_game g) hne1
    rwa [scored_game_player1, scored_game_player2, scored_game_mode, scored_game_points,
         scored_game_bet] at this
  · intro p2id hp2
    rw [heval]
    have := settle_match_last_p2 s chat key (scored_game g) p2id
      (by rw [scored_game_player2]; exact hp2)
    rwa [scored_game_player1, scored_game_mode, scored_game_points, scored_game_bet] at this
  · rw [heval]
    exact settle_match_games_none s chat key (scored_game g)
  · intro p2id hp2
    rw [heval]
    exact settle_match_userGames_p2 s chat key (scored_game g) p2id
      (by rw [scored_game_player2]; exact hp2)
  · intro msg r dice f2
    simp [dart_throw_run, dart_throw, hUGp1]

/-- Concrete completing game for the C4 witness: normal mode, target 1,
player 10 vs player 11, throws 6 and 2. -/
def c4g : Game :=
  { player1 := 10, player2 := Player.human 11, mode := Mode.normal, pointsToWin := 1,
    bet := 1, score1 := 0, score2 := 0, currentPlayer := Slot.p2,
    rolls1 := [6], rolls2 := [2], rollsNeeded := 1, rollCount1 := 1,
    rollCount2 := 1, roundNumber := 1, messageId := some 40 }

/-- Session key for the C4 witness. -/
def c4key : GameKey := (1, 10, Player.human 11)

/-- Pre-settlement state for the C4 witness. -/
def c4s : St :=
  { balances := [(10, 4), (11, 4)], games := [(c4key, c4g)],
    userGames := [((1, 10), c4key), ((1, 11), c4key)], lastGames := [],
    pendingChallenges := [], coinGames := [] }

/-- Witness for C4 at the spec's own match-end scenario (target 1, normal
mode, A throws 6, B throws 2). -/
theorem c4_match_completion_witness :
    (c4g.rollsNeeded ≤ c4g.rolls1.length ∧ c4g.rollsNeeded ≤ c4g.rolls2.length ∧
     max c4g.score1 c4g.score2 < c4g.pointsToWin ∧
     c4g.pointsToWin ≤ max (scored_game c4g).score1 (scored_game c4g).score2 ∧
     match_winner (scored_game c4g) = Player.human 10) ∧
    get_user_balance (evaluate_round c4s 1 c4key c4g 55) 10 =
      get_user_balance c4s 10 + c4g.bet * 1.92 + c4g.bet ∧
    get_user_balance (evaluate_round c4s 1 c4key c4g 55) 11 = get_user_balance c4s 11 ∧
    getLastGame (evaluate_round c4s 1 c4key c4g 55) 1 c4g.player1 =
      some ⟨c4g.player2, c4g.mode, c4g.pointsToWin, c4g.bet⟩ ∧
    getLastGame (evaluate_round c4s 1 c4key c4g 55) 1 11 =
      some ⟨Player.human c4g.player1, c4g.mode, c4g.pointsToWin, c4g.bet⟩ ∧
    dget (evaluate_round c4s 1 c4key c4g 55).games c4key = none ∧
    dget (evaluate_round c4s 1 c4key c4g 55).userGames (1, c4g.player1) = none ∧
    dget (evaluate_round c4s 1 c4key c4g 55).userGames (1, 11) = none := by
  have H := c4_match_completion c4s 1 c4key c4g 55 (by decide) (by decide) (by decide)
    (by decide)
    (by intro p2id hp; injection hp with h; subst h; decide)
  refine ⟨⟨by decide, by decide, by decide, by decide, by decide⟩, ?_, ?_, ?_, ?_, ?_, ?_, ?_⟩
  · exact (H.1 10 (by decide)).1
  · exact (H.1 10 (by decide)).2 11 (by decide)
  · exact H.2.2.1
  · exact H.2.2.2.1 11 (by decide)
  · exact H.2.2.2.2.1
  · exact H.2.2.2.2.2.1
  · exact H.2.2.2.2.2.2.1 11 (by decide)

theorem dart_accept_spec (s : St) (ud : UserData) (chat uid gid fresh : Nat)
    (ch : Challenge)
    (hch : dget s.pendingChallenges gid = some ch)
    (hresp : uid = ch.challenged)
    (hb1 : dget s.userGames (chat, ch.initiator) = none)
    (hb2 : dget s.userGames (chat, uid) = none)
    (hne : ch.initiator ≠ uid) :
    isOkResult (dart_accept s ud chat uid gid fresh) = true ∧
    get_user_balance (dart_accept_run s ud chat uid gid fresh) ch.initiator =
      get_user_balance s ch.initiator - ch.bet ∧
    get_user_balance (dart_accept_run s ud chat uid gid fresh) uid =
      get_user_balance s uid - ch.bet ∧
    (∀ u, u ≠ ch.initiator → u ≠ uid →
      get_user_balance (dart_accept_run s ud chat uid gid fresh) u = get_user_balance s u) ∧
    dget (dart_accept_run s ud chat uid gid fresh).userGames (chat, ch.initiator) =
      some (chat, ch.initiator, Player.human uid) ∧
    dget (dart_accept_run s ud chat uid gid fresh).userGames (chat, uid) =
      some (chat, ch.initiator, Player.human uid) ∧
    dget (dart_accept_run s ud chat uid gid fresh).pendingChallenges gid = none := by
  have hcond1 : ¬ (uid ≠ ch.challenged) := by simp [hresp]
  have hcond2 : ¬ ((dget s.userGames (chat, ch.initiator)).isSome ∨
      (dget s.userGames (chat, uid)).isSome) := by simp [hb1, hb2]
  have hne2 : uid ≠ ch.initiator := Ne.symm hne
  have hkne : ((chat, uid) : Nat × Nat) ≠ (chat, ch.initiator) := by simp [hne2]
  unfold dart_accept_run dart_accept isOkResult
  simp only [hch, if_neg hcond1, if_neg hcond2]
  refine ⟨trivial, ?_, ?_, ?_, ?_, ?_, ?_⟩
  · simp [get_user_balance, update_user_balance, dget_dinsert_self,
          dget_dinsert_ne _ _ _ _ hne2]
  · simp [get_user_balance, update_user_balance, dget_dinsert_self,
          dget_dinsert_ne _ _ _ _ hne]
  · intro u hu1 hu2
    have h1 : uid ≠ u := Ne.symm hu2
    have h2 : ch.initiator ≠ u := Ne.symm hu1
    simp [get_user_balance, update_user_balance, dget_dinsert_ne _ _ _ _ h1,
          dget_dinsert_ne _ _ _ _ h2]
  · simp [update_user_balance, dget_dinsert_ne _ _ _ _ hkne, dget_dinsert_self]
  · simp [update_user_balance, dget_dinsert_self]
  · simp [update_user_balance, dget_derase_self]

/-- Concrete state for the C10 concrete-run conjunct: users 10 and 11 both at
balance 0, a pending wager-5 challenge from 10 to 11. -/
def c10s : St :=
  { balances := [(10, 0), (11, 0)], games := [], userGames := [], lastGames := [],
    pendingChallenges := [(1, ⟨10, 11, Mode.normal, 1, 5⟩)], coinGames := [] }

/-- Empty per-user data used by several concrete scenarios. -/
def emptyUD : UserData := ⟨none, none, none, false, none, none⟩

/-- Claim C10: accepting a pending challenge debits the full wager from both
participants unconditionally once the challenge exists, the responder is the
designated opponent, and neither party has a registered session — no balance
sufficiency is re-checked, and (concrete-run conjuncts) a participant with
balance 0 accepting a wager-5 challenge ends at balance -5, so balance
nonnegativity is not an invariant preserved by the accept operation. -/
theorem c10_accept_debits_unconditionally :
    (∀ (s : St) (ud : UserData) (chat uid gid fresh : Nat) (ch : Challenge),
      dget s.pendingChallenges gid = some ch →
      uid = ch.challenged →
      dget s.userGames (chat, ch.initiator) = none →
      dget s.userGames (chat, uid) = none →
      ch.initiator ≠ uid →
      isOkResult (dart_accept s ud chat uid gid fresh) = true ∧
      get_user_balance (dart_accept_run s ud chat uid gid fresh) ch.initiator =
        get_user_balance s ch.initiator - ch.bet ∧
      get_user_balance (dart_accept_run s ud chat uid gid fresh) uid =
        get_user_balance s uid - ch.bet) ∧
    get_user_balance (dart_accept_run c10s emptyUD 1 11 1 77) 10 = -5 ∧
    get_user_balance (dart_accept_run c10s emptyUD 1 11 1 77) 11 = -5 ∧
    ((-5 : Rat) < 0) := by
  refine ⟨?_, ?_, ?_, by norm_num⟩
  · intro s ud chat uid gid fresh ch hch hresp hb1 hb2 hne
    have H := dart_accept_spec s ud chat uid gid fresh ch hch hresp hb1 hb2 hne
    exact ⟨H.1, H.2.1, H.2.2.1⟩
  · norm_num [c10s, emptyUD, dart_accept_run, dart_accept, dget, dinsert, derase,
              get_user_balance, update_user_balance]
  · norm_num [c10s, emptyUD, dart_accept_run, dart_accept, dget, dinsert, derase,
              get_user_balance, update_user_balance]

/-- Witness for C10's universally quantified conjunct, at a concrete pending
challenge between users 10 and 11 with wager 5 and both balances 0. -/
theorem c10_accept_witness :
    dget c10s.pendingChallenges 1 = some ⟨10, 11, Mode.normal, 1, 5⟩ ∧
    isOkResult (dart_accept c10s emptyUD 1 11 1 77) = true ∧
    get_user_balance (dart_accept_run c10s emptyUD 1 11 1 77) 10 =
      get_user_balance c10s 10 - 5 := by
  have H := c10_accept_debits_unconditionally.1 c10s emptyUD 1 11 1 77
    ⟨10, 11, Mode.normal, 1, 5⟩ (by decide) (by decide) (by decide) (by decide) (by decide)
  exact ⟨by decide, H.1, H.2.1⟩

/-- Initial state of the C1 counterexample: users 10 and 11 at balance 5, a
pending wager-1 challenge (normal mode, first to 1) from 10 to 11. -/
def c1s0 : St :=
  { balances := [(10, 5), (11, 5)], games := [], userGames := [], lastGames := [],
    pendingChallenges := [(1, ⟨10, 11, Mode.normal, 1, 1⟩)], coinGames := [] }

/-- C1 counterexample after 11 accepts: both stakes escrowed. -/
def c1s1 : St := dart_accept_run c1s0 emptyUD 1 11 1 100

/-- C1 counterexample after player 10 throws a 6. -/
def c1s2 : St := dart_throw_run c1s1 1 10 100 1 [6] 101

/-- C1 counterexample after player 11 throws a 2: round evaluates, 10 wins the
match and the session settles. -/
def c1s3 : St := dart_throw_run c1s2 1 11 101 1 [2] 102

/-- Counterexample to C1: in a completed human-vs-human session with wager 1,
each participant is debited 1 at escrow (total 2), the human winner is then
credited `1 * 1.92 + 1 = 2.92`, so the escrowed total (2) differs from the
winner's credit beyond their own returned stake (1.92) plus the house-retained
amount (0, since a human won), and total balances across the session rise by
0.92 — value is created, and the loser's stake does not cover the winner's net
credit. -/
theorem c1_escrow_counterexample :
    get_user_balance c1s0 10 - get_user_balance c1s1 10 = 1 ∧
    get_user_balance c1s0 11 - get_user_balance c1s1 11 = 1 ∧
    dget c1s3.games (1, 10, Player.human 11) = none ∧
    dget c1s3.userGames (1, 10) = none ∧
    get_user_balance c1s3 10 - get_user_balance c1s1 10 = 1 * 1.92 + 1 ∧
    get_user_balance c1s3 11 = get_user_balance c1s1 11 ∧
    ¬ ((get_user_balance c1s0 10 - get_user_balance c1s1 10) +
         (get_user_balance c1s0 11 - get_user_balance c1s1 11) =
       (get_user_balance c1s3 10 - get_user_balance c1s1 10 - 1) + 0) ∧
    (get_user_balance c1s3 10 + get_user_balance c1s3 11) -
      (get_user_balance c1s0 10 + get_user_balance c1s0 11) = 0.92 := by
  refine ⟨?_, ?_, ?_, ?_, ?_, ?_, ?_, ?_⟩ <;>
    norm_num [c1s0, c1s1, c1s2, c1s3, dart_accept_run, dart_accept, dart_throw_run,
              dart_throw, evaluate_round, settle_match, scored_game, match_winner,
              round_scores, playerSlot, addRoll, otherSlot, rollCount, slotPlayer,
              next_round_game, reset_game, dget, dinsert, derase, get_user_balance,
              update_user_balance, setLastGame, getLastGame]

/-- Amended C1: escrow debits exactly the wager from each human participant at
accept time, but settlement credits a human winner `wager * 1.92 + wager`
(and credits nothing when the synthetic opponent wins), so escrow equals the
settled amount only in sessions the house wins; when a human wins, the payout
exceeds the total escrow. -/
theorem c1_settlement_amounts :
    (∀ (s : St) (ud : UserData) (chat uid gid fresh : Nat) (ch : Challenge),
      dget s.pendingChallenges gid = some ch →
      uid = ch.challenged →
      dget s.userGames (chat, ch.initiator) = none →
      dget s.userGames (chat, uid) = none →
      ch.initiator ≠ uid →
      get_user_balance (dart_accept_run s ud chat uid gid fresh) ch.initiator =
        get_user_balance s ch.initiator - ch.bet ∧
      get_user_balance (dart_accept_run s ud chat uid gid fresh) uid =
        get_user_balance s uid - ch.bet) ∧
    (∀ (s : St) (chat : Nat) (key : GameKey) (g : Game) (fresh : Nat),
      g.rollsNeeded ≤ g.rolls1.length →
      g.rollsNeeded ≤ g.rolls2.length →
      g.pointsToWin ≤ max (scored_game g).score1 (scored_game g).score2 →
      (∀ w, match_winner (scored_game g) = Player.human w →
        get_user_balance (evaluate_round s chat key g fresh) w =
          get_user_balance s w + g.bet * 1.92 + g.bet ∧
        ∀ u, u ≠ w →
          get_user_balance (evaluate_round s chat key g fresh) u = get_user_balance s u) ∧
      (match_winner (scored_game g) = Player.bot →
        ∀ u, get_user_balance (evaluate_round s chat key g fresh) u =
          get_user_balance s u)) := by
  constructor
  · intro s ud chat uid gid fresh ch hch hresp hb1 hb2 hne
    have H := dart_accept_spec s ud chat uid gid fresh ch hch hresp hb1 hb2 hne
    exact ⟨H.2.1, H.2.2.1⟩
  · intro s chat key g fresh h1 h2 hw
    have heval := evaluate_round_complete s chat key g fresh h1 h2
      (by rw [scored_game_points]; exact hw)
    constructor
    · intro w hwm
      have hb := settle_match_balances s chat key (scored_game g)
      rw [hwm] at hb
      rw [scored_game_bet] at hb
      constructor
      · rw [heval, bal_congr _ _ hb w, bal_update_self]
      · intro u hu
        rw [heval, bal_congr _ _ hb u, bal_update_ne _ _ _ _ (Ne.symm hu)]
    · intro hwm u
      have hb := settle_match_balances s chat key (scored_game g)
      rw [hwm] at hb
      rw [heval, bal_congr _ _ hb u]

/-- Completed wager-2 bot game won by the synthetic opponent, for the C1
witness: player 7 throws 1, the bot throws 5. -/
def c1botg : Game :=
  { player1 := 7, player2 := Player.bot, mode := Mode.normal, pointsToWin := 1,
    bet := 2, score1 := 0, score2 := 0, currentPlayer := Slot.p2,
    rolls1 := [1], rolls2 := [5], rollsNeeded := 1, rollCount1 := 1,
    rollCount2 := 1, roundNumber := 1, messageId := some 30 }

/-- State holding the C1 witness bot game. -/
def c1bots : St :=
  { balances := [(7, 8)], games := [((1, 7, Player.bot), c1botg)],
    userGames := [((1, 7), (1, 7, Player.bot))], lastGames := [],
    pendingChallenges := [], coinGames := [] }

/-- Witness for C1's amended theorem: the accept conjunct at the C1
counterexample's initial state, and the settlement conjunct at a bot game the
house wins (no credit occurs). -/
theorem c1_settlement_witness :
    (dget c1s0.pendingChallenges 1 = some ⟨10, 11, Mode.normal, 1, 1⟩ ∧
     get_user_balance (dart_accept_run c1s0 emptyUD 1 11 1 100) 10 =
       get_user_balance c1s0 10 - 1 ∧
     get_user_balance (dart_accept_run c1s0 emptyUD 1 11 1 100) 11 =
       get_user_balance c1s0 11 - 1) ∧
    (match_winner (scored_game c1botg) = Player.bot ∧
     get_user_balance (evaluate_round c1bots 1 (1, 7, Player.bot) c1botg 31) 7 =
       get_user_balance c1bots 7) := by
  have H1 := c1_settlement_amounts.1 c1s0 emptyUD 1 11 1 100
    ⟨10, 11, Mode.normal, 1, 1⟩ (by decide) (by decide) (by decide) (by decide) (by decide)
  have H2 := c1_settlement_amounts.2 c1bots 1 (1, 7, Player.bot) c1botg 31
    (by decide) (by decide) (by decide)
  exact ⟨⟨by decide, H1.1, H1.2⟩, ⟨by decide, H2.2 (by decide) 7⟩⟩

/-- User data with a completed darts setup, for the C2 counterexample. -/
def c2ud : UserData :=
  ⟨some ⟨7, 1, "mode_selection", some 5⟩, some Mode.normal, some 1, false, none, none⟩

/-- C2 counterexample state: user 7 holds an active coin session in chat 1 and
no dice-duel session. -/
def c2s : St :=
  { balances := [(7, 10)], games := [], userGames := [], lastGames := [],
    pendingChallenges := [], coinGames := [((1, 7), ⟨2, Side.heads, 9⟩)] }

/-- Counterexample to C2: a participant who already holds a registered (coin)
session in the chat can still start a darts bot match — the attempt succeeds
and registers a second session instead of failing with a busy rejection,
because the coin game lives in the separate `coin_games` registry that the
dice-duel handlers never consult. -/
theorem c2_cross_variant_counterexample :
    (dget c2s.coinGames (1, 7)).isSome = true ∧
    isOkResult (start_game_against_bot c2s c2ud 1 7 50) = true ∧
    dget (bot_start_run c2s c2ud 1 7 50).userGames (1, 7) = some (1, 7, Player.bot) ∧
    (dget (bot_start_run c2s c2ud 1 7 50).coinGames (1, 7)).isSome = true := by
  refine ⟨by decide, by decide, by decide, by decide⟩

/-- Amended C2: mutual exclusion holds per registry — a participant with a
`user_games` entry cannot start a darts bot match nor be on either side of an
accepted challenge, and a participant with a `coin_games` entry cannot start a
new coin game; but the two registries are disjoint, so a coin session does not
block a dice-duel session (see the counterexample). -/
theorem c2_per_registry_exclusion :
    (∀ (s : St) (ud : UserData) (chat uid fresh : Nat),
      (dget s.userGames (chat, uid)).isSome = true →
      start_game_against_bot s ud chat uid fresh = .error .alreadyInGame) ∧
    (∀ (s : St) (ud : UserData) (chat uid gid fresh : Nat) (ch : Challenge),
      dget s.pendingChallenges gid = some ch →
      uid = ch.challenged →
      ((dget s.userGames (chat, ch.initiator)).isSome = true ∨
       (dget s.userGames (chat, uid)).isSome = true) →
      dart_accept s ud chat uid gid fresh = .error .eitherBusy) ∧
    (∀ (s : St) (ud : UserData) (chat uid fresh : Nat) (amount : Rat),
      (dget s.coinGames (chat, uid)).isSome = true →
      coin_command s ud chat uid amount fresh = .error .alreadyInGame) := by
  refine ⟨?_, ?_, ?_⟩
  · intro s ud chat uid fresh h
    simp [start_game_against_bot, h]
  · intro s ud chat uid gid fresh ch hch hresp hbusy
    subst hresp
    simp only [dart_accept, hch]
    rw [if_neg (by simp), if_pos hbusy]
  · intro s ud chat uid fresh amount h
    simp [coin_command, h]

/-- State with user 7 busy in a darts bot game and user 8 challenged by the
busy user, for the C2 witness. -/
def c2busy : St :=
  { balances := [(7, 10), (8, 10)],
    games := [((1, 7, Player.bot), c1botg)],
    userGames := [((1, 7), (1, 7, Player.bot))], lastGames := [],
    pendingChallenges := [(1, ⟨7, 8, Mode.normal, 1, 1⟩)], coinGames := [] }

/-- Witness for C2's amended theorem: a busy participant's bot-match start and
a challenge whose initiator is busy are both rejected, and a `/coin` attempt
by a coin-busy participant is rejected. -/
theorem c2_per_registry_witness :
    ((dget c2busy.userGames (1, 7)).isSome = true ∧
     start_game_against_bot c2busy c2ud 1 7 50 = .error .alreadyInGame) ∧
    (dget c2busy.pendingChallenges 1 = some ⟨7, 8, Mode.normal, 1, 1⟩ ∧
     dart_accept c2busy emptyUD 1 8 1 51 = .error .eitherBusy) ∧
    ((dget c2s.coinGames (1, 7)).isSome = true ∧
     coin_command c2s emptyUD 1 7 3 60 = .error .alreadyInGame) := by
  refine ⟨⟨by decide, ?_⟩, ⟨by decide, ?_⟩, ⟨by decide, ?_⟩⟩
  · exact c2_per_registry_exclusion.1 c2busy c2ud 1 7 50 (by decide)
  · exact c2_per_registry_exclusion.2.1 c2busy emptyUD 1 8 1 51
      ⟨7, 8, Mode.normal, 1, 1⟩ (by decide) (by decide) (Or.inl (by decide))
  · exact c2_per_registry_exclusion.2.2 c2s emptyUD 1 7 60 3 (by decide)

/-- Mid-round darts bot game for the C3 counterexample: double mode, player 7
has thrown once; the current prompt anchor is message 20 (the original
round-1 button was message 10). -/
def c3g : Game :=
  { player1 := 7, player2 := Player.bot, mode := Mode.double, pointsToWin := 2,
    bet := 1, score1 := 0, score2 := 0, currentPlayer := Slot.p1,
    rolls1 := [3], rolls2 := [], rollsNeeded := 2, rollCount1 := 1,
    rollCount2 := 0, roundNumber := 1, messageId := some 20 }

/-- State holding the C3 counterexample game. -/
def c3s : St :=
  { balances := [(7, 10)], games := [((1, 7, Player.bot), c3g)],
    userGames := [((1, 7), (1, 7, Player.bot))], lastGames := [],
    pendingChallenges := [], coinGames := [] }

/-- Counterexample to C3: the deployed dispatch wraps the darts handler in
`with_game_ownership_check(use_bot_data=True)`, which overwrites the session's
stored anchor with the incoming message id before the handler's anchor check
runs.  A submission carrying the stale anchor 10 (current anchor: 20) is
therefore accepted, appends an outcome, triggers round evaluation and advances
the score and round number — session state is mutated.  Only the bare
handler's own check would have rejected it. -/
theorem c3_wrapped_stale_anchor_counterexample :
    (dget c3s.games (1, 7, Player.bot)).map Game.messageId = some (some 20) ∧
    (10 : Nat) ≠ 20 ∧
    isOkResult (wrapped_dart_throw c3s emptyUD 1 7 10 1 [5, 1, 1] 102) = true ∧
    (dget (wrapped_dart_throw_run c3s emptyUD 1 7 10 1 [5, 1, 1] 102).games
        (1, 7, Player.bot)).map Game.score1 = some 1 ∧
    (dget (wrapped_dart_throw_run c3s emptyUD 1 7 10 1 [5, 1, 1] 102).games
        (1, 7, Player.bot)).map Game.roundNumber = some 2 ∧
    wrapped_dart_throw_run c3s emptyUD 1 7 10 1 [5, 1, 1] 102 ≠ c3s ∧
    dart_throw c3s 1 7 10 1 [5, 1, 1] 102 = .error .staleAnchor := by
  refine ⟨by decide, by decide, by decide, by decide, by decide, by decide, rfl⟩

theorem dart_throw_stale_source (s : St) (chat uid msg turnRound : Nat)
    (dice : List Nat) (fresh : Nat)
    (h : dart_throw s chat uid msg turnRound dice fresh = .error .staleAnchor) :
    ∃ key g, dget s.userGames (chat, uid) = some key ∧ dget s.games key = some g ∧
      some msg ≠ g.messageId := by
  unfold dart_throw at h
  cases huv : dget s.userGames (chat, uid) with
  | none =>
    rw [huv] at h
    simp at h
  | some key =>
    rw [huv] at h
    dsimp only at h
    cases hgv : dget s.games key with
    | none =>
      rw [hgv] at h
      simp at h
    | some g =>
      rw [hgv] at h
      dsimp only at h
      by_cases hmis : some msg ≠ g.messageId
      · exact ⟨key, g, rfl, hgv, hmis⟩
      · rw [if_neg hmis] at h
        exfalso
        repeat' split at h
        all_goals simp at h

/-- Amended C3: the bare throw handler does reject an action whose anchor
differs from the stored prompt anchor, mutating nothing; but the deployed
wrapped dispatch first rewrites the stored anchor to the incoming message id,
so it can never reject by anchor — stale actions are screened only by the
later round-number and turn checks. -/
theorem c3_anchor_check_amended :
    (∀ (s : St) (chat uid msg turnRound : Nat) (dice : List Nat) (fresh : Nat)
       (key : GameKey) (g : Game),
      dget s.userGames (chat, uid) = some key →
      dget s.games key = some g →
      some msg ≠ g.messageId →
      dart_throw s chat uid msg turnRound dice fresh = .error .staleAnchor ∧
      dart_throw_run s chat uid msg turnRound dice fresh = s) ∧
    (∀ (s : St) (ud : UserData) (chat uid msg turnRound : Nat) (dice : List Nat)
       (fresh : Nat),
      wrapped_dart_throw s ud chat uid msg turnRound dice fresh ≠
        .error .staleAnchor) := by
  constructor
  · intro s chat uid msg turnRound dice fresh key g hug hg hmis
    constructor
    · unfold dart_throw
      simp only [hug, hg]
      rw [if_pos hmis]
    · unfold dart_throw_run dart_throw
      simp only [hug, hg]
      rw [if_pos hmis]
  · intro s ud chat uid msg turnRound dice fresh hcontra
    unfold wrapped_dart_throw at hcontra
    cases huv : dget s.userGames (chat, uid) with
    | none =>
      rw [huv] at hcontra
      dsimp only at hcontra
      cases hds : ud.diceSetupMsg with
      | none =>
        rw [hds] at hcontra
        simp at hcontra
      | some m =>
        rw [hds] at hcontra
        dsimp only at hcontra
        by_cases hm : m = msg
        · rw [if_pos hm] at hcontra
          obtain ⟨key, g, hk, -, -⟩ :=
            dart_throw_stale_source _ _ _ _ _ _ _ hcontra
          rw [huv] at hk
          exact Option.noConfusion hk
        · rw [if_neg hm] at hcontra
          simp at hcontra
    | some key =>
      rw [huv] at hcontra
      dsimp only at hcontra
      cases hgv : dget s.games key with
      | none =>
        rw [hgv] at hcontra
        dsimp only at hcontra
        cases hds : ud.diceSetupMsg with
        | none =>
          rw [hds] at hcontra
          simp at hcontra
        | some m =>
          rw [hds] at hcontra
          dsimp only at hcontra
          by_cases hm : m = msg
          · rw [if_pos hm] at hcontra
            obtain ⟨key2, g, hk, hgm, -⟩ :=
              dart_throw_stale_source _ _ _ _ _ _ _ hcontra
            rw [huv] at hk
            injection hk with he
            subst he
            rw [hgv] at hgm
            exact Option.noConfusion hgm
          · rw [if_neg hm] at hcontra
            simp at hcontra
      | some g =>
        rw [hgv] at hcontra
        dsimp only at hcontra
        obtain ⟨key2, g2, hk, hg2, hmis⟩ :=
          dart_throw_stale_source _ _ _ _ _ _ _ hcontra
        have hk2 : dget s.userGames (chat, uid) = some key2 := hk
        rw [huv] at hk2
        injection hk2 with he
        subst he
        have hg3 : dget (dinsert s.games key { g with messageId := some msg }) key =
            some g2 := hg2
        rw [dget_dinsert_self] at hg3
        injection hg3 with he2
        subst he2
        exact hmis rfl

/-- Witness for C3's amended theorem at the counterexample's session: the bare
handler rejects the stale anchor 10 without mutating state, and the wrapped
dispatch never rejects by anchor. -/
theorem c3_anchor_check_witness :
    (dget c3s.userGames (1, 7) = some (1, 7, Player.bot) ∧
     dget c3s.games (1, 7, Player.bot) = some c3g ∧
     some 10 ≠ c3g.messageId ∧
     dart_throw c3s 1 7 10 1 [9] 103 = .error .staleAnchor ∧
     dart_throw_run c3s 1 7 10 1 [9] 103 = c3s) ∧
    wrapped_dart_throw c3s emptyUD 1 7 10 1 [9] 103 ≠ .error .staleAnchor := by
  have H := c3_anchor_check_amended.1 c3s 1 7 10 1 [9] 103 (1, 7, Player.bot) c3g
    (by decide) (by decide) (by decide)
  exact ⟨⟨by decide, by decide, by decide, H.1, H.2⟩,
    c3_anchor_check_amended.2 c3s emptyUD 1 7 10 1 [9] 103⟩

theorem addRoll_player1 (g : Game) (pk : Slot) (v : Nat) :
    (addRoll g pk v).player1 = g.player1 := by
  cases pk <;> rfl

theorem addRoll_player2 (g : Game) (pk : Slot) (v : Nat) :
    (addRoll g pk v).player2 = g.player2 := by
  cases pk <;> rfl

theorem extendRolls_player1 (g : Game) (sl : Slot) (vs : List Nat) :
    (extendRolls g sl vs).player1 = g.player1 := by
  cases sl <;> rfl

theorem extendRolls_player2 (g : Game) (sl : Slot) (vs : List Nat) :
    (extendRolls g sl vs).player2 = g.player2 := by
  cases sl <;> rfl

theorem eval_lastGames_or (s : St) (chat : Nat) (key : GameKey) (g : Game)
    (fresh : Nat) (uid : Nat)
    (huid : g.player1 = uid ∨ g.player2 = Player.human uid) :
    (evaluate_round s chat key g fresh).lastGames = s.lastGames ∨
    (dget (evaluate_round s chat key g fresh).games key = none ∧
     dget (evaluate_round s chat key g fresh).userGames (chat, uid) = none) := by
  unfold evaluate_round
  split
  · left
    rfl
  · dsimp only
    split
    · right
      refine ⟨settle_match_games_none s chat key (scored_game g), ?_⟩
      rcases huid with h | h
      · have := settle_match_userGames_p1 s chat key (scored_game g)
        rwa [scored_game_player1, h] at this
      · exact settle_match_userGames_p2 s chat key (scored_game g) uid
          (by rw [scored_game_player2]; exact h)
    · left
      rfl

theorem dart_throw_run_cases (s : St) (chat uid msg turnRound : Nat)
    (dice : List Nat) (fresh : Nat) :
    dart_throw_run s chat uid msg turnRound dice fresh = s ∨
    (∃ key, dget s.userGames (chat, uid) = some key ∧
      ((∃ g1, dart_throw_run s chat uid msg turnRound dice fresh =
          { s with games := dinsert s.games key g1 }) ∨
       (∃ g1, (g1.player1 = uid ∨ g1.player2 = Player.human uid) ∧
          dart_throw_run s chat uid msg turnRound dice fresh =
            evaluate_round s chat key g1 fresh))) := by
  unfold dart_throw_run dart_throw
  cases huv : dget s.userGames (chat, uid) with
  | none => left; rfl
  | some key =>
    dsimp only
    cases hgv : dget s.games key with
    | none => left; rfl
    | some g =>
      dsimp only
      by_cases hmis : some msg ≠ g.messageId
      · rw [if_pos hmis]
        left
        rfl
      · rw [if_neg hmis]
        by_cases hov : max g.score1 g.score2 ≥ g.pointsToWin
        · rw [if_pos hov]
          left
          rfl
        · rw [if_neg hov]
          cases hps : playerSlot g uid with
          | none => left; rfl
          | some pk =>
            dsimp only
            have huid : g.player1 = uid ∨ g.player2 = Player.human uid :=
              playerSlot_some g uid pk hps
            by_cases hr : turnRound ≠ g.roundNumber
            · rw [if_pos hr]
              left
              rfl
            · rw [if_neg hr]
              by_cases ht : pk ≠ g.currentPlayer
              · rw [if_pos ht]
                left
                rfl
              · rw [if_neg ht]
                by_cases hboth : (addRoll g pk (dice.headD 1)).rollCount1 =
                      (addRoll g pk (dice.headD 1)).rollsNeeded ∧
                    (addRoll g pk (dice.headD 1)).rollCount2 =
                      (addRoll g pk (dice.headD 1)).rollsNeeded
                · rw [if_pos hboth]
                  right
                  refine ⟨key, rfl, Or.inr ⟨addRoll g pk (dice.headD 1), ?_, rfl⟩⟩
                  rcases huid with h | h
                  · exact Or.inl (by rw [addRoll_player1, h])
                  · exact Or.inr (by rw [addRoll_player2, h])
                · rw [if_neg hboth]
                  by_cases hlt : rollCount (addRoll g pk (dice.headD 1)) pk <
                      (addRoll g pk (dice.headD 1)).rollsNeeded
                  · rw [if_pos hlt]
                    right
                    exact ⟨key, rfl, Or.inl ⟨_, rfl⟩⟩
                  · rw [if_neg hlt]
                    cases pk with
                    | p1 =>
                      dsimp only [otherSlot, slotPlayer, addRoll]
                      cases hp2 : g.player2 with
                      | bot =>
                        dsimp only
                        right
                        refine ⟨key, rfl, Or.inr ⟨_, ?_, rfl⟩⟩
                        rcases huid with h | h
                        · refine Or.inl ?_
                          rw [extendRolls_player1]
                          exact h
                        · rw [hp2] at h
                          exact absurd h (by simp)
                      | human hid =>
                        dsimp only
                        right
                        exact ⟨key, rfl, Or.inl ⟨_, rfl⟩⟩
                    | p2 =>
                      dsimp only [otherSlot, slotPlayer]
                      right
                      exact ⟨key, rfl, Or.inl ⟨_, rfl⟩⟩

/-- Claim C5: for a wager `0 < w ≤ balance`, starting a bot match debits
exactly `w` from the initiator exactly once at session start (no other balance
changes), registers the session with empty outcome buffers (so the debit
precedes any turn outcome), and writes no last-game summary; moreover
(second conjunct) no throw dispatch writes a last-game summary while the
session still exists — the summary appears only when the session is deleted at
completion. -/
theorem c5_bot_match_escrow :
    (∀ (s : St) (ud : UserData) (chat uid fresh : Nat) (setup : DartSetup)
       (m : Mode) (p : Nat),
      ud.dartSetup = some setup →
      ud.dartMode = some m →
      ud.dartPoints = some p →
      0 < setup.bet →
      setup.bet ≤ get_user_balance s uid →
      dget s.userGames (chat, uid) = none →
      isOkResult (start_game_against_bot s ud chat uid fresh) = true ∧
      get_user_balance (bot_start_run s ud chat uid fresh) uid =
        get_user_balance s uid - setup.bet ∧
      (∀ u, u ≠ uid →
        get_user_balance (bot_start_run s ud chat uid fresh) u = get_user_balance s u) ∧
      (bot_start_run s ud chat uid fresh).lastGames = s.lastGames ∧
      dget (bot_start_run s ud chat uid fresh).userGames (chat, uid) =
        some (chat, uid, Player.bot) ∧
      (dget (bot_start_run s ud chat uid fresh).games (chat, uid, Player.bot)).map
        Game.rolls1 = some [] ∧
      (dget (bot_start_run s ud chat uid fresh).games (chat, uid, Player.bot)).map
        Game.rolls2 = some []) ∧
    (∀ (s : St) (chat uid msg turnRound : Nat) (dice : List Nat) (fresh : Nat)
       (key : GameKey),
      dget s.userGames (chat, uid) = some key →
      (dart_throw_run s chat uid msg turnRound dice fresh).lastGames = s.lastGames ∨
      (dget (dart_throw_run s chat uid msg turnRound dice fresh).games key = none ∧
       dget (dart_throw_run s chat uid msg turnRound dice fresh).userGames
         (chat, uid) = none)) := by
  constructor
  · intro s ud chat uid fresh setup m p hsetup hmode hpoints hpos hbal hfree
    unfold bot_start_run start_game_against_bot isOkResult
    simp only [hfree, hsetup, hmode, hpoints, Option.isSome_none, Bool.false_eq_true,
      if_false, ite_false]
    refine ⟨trivial, ?_, ?_, rfl, ?_, ?_, ?_⟩
    · simp [get_user_balance, update_user_balance, dget_dinsert_self]
    · intro u hu
      have h2 : uid ≠ u := Ne.symm hu
      simp [get_user_balance, update_user_balance, dget_dinsert_ne _ _ _ _ h2]
    · simp [update_user_balance, dget_dinsert_self]
    · simp [update_user_balance, dget_dinsert_self]
    · simp [update_user_balance, dget_dinsert_self]
  · intro s chat uid msg turnRound dice fresh key hug
    rcases dart_throw_run_cases s chat uid msg turnRound dice fresh with
      h | ⟨key2, hk2, hcase⟩
    · left
      rw [h]
    · rw [hug] at hk2
      injection hk2 with he
      subst he
      rcases hcase with ⟨g1, hrun⟩ | ⟨g1, huid, hrun⟩
      · left
        rw [hrun]
      · rw [hrun]
        exact eval_lastGames_or s chat key g1 fresh uid huid

/-- User data with a completed darts setup (bet 4, normal mode, first to 2)
for the C5 witness. -/
def c5ud : UserData :=
  ⟨some ⟨7, 4, "mode_selection", some 3⟩, some Mode.normal, some 2, false, none, none⟩

/-- State for the C5 witness: user 7 with balance 10 and no active session. -/
def c5s : St := ⟨[(7, 10)], [], [], [], [], []⟩

/-- Witness for C5: starting the bot match at bet 4 with balance 10 debits
exactly 4, registers an empty-buffer session and writes no summary; and a
throw dispatch against the mid-round session `c3s` leaves the summary table
unchanged or deletes the session. -/
theorem c5_bot_match_witness :
    ((0 : Rat) < 4 ∧ (4 : Rat) ≤ get_user_balance c5s 7 ∧
     dget c5s.userGames (1, 7) = none ∧
     isOkResult (start_game_against_bot c5s c5ud 1 7 90) = true ∧
     get_user_balance (bot_start_run c5s c5ud 1 7 90) 7 = get_user_balance c5s 7 - 4 ∧
     (bot_start_run c5s c5ud 1 7 90).lastGames = c5s.lastGames ∧
     (dget (bot_start_run c5s c5ud 1 7 90).games (1, 7, Player.bot)).map
       Game.rolls1 = some []) ∧
    ((dart_throw_run c3s 1 7 20 1 [5, 1, 1] 104).lastGames = c3s.lastGames ∨
     (dget (dart_throw_run c3s 1 7 20 1 [5, 1, 1] 104).games (1, 7, Player.bot) = none ∧
      dget (dart_throw_run c3s 1 7 20 1 [5, 1, 1] 104).userGames (1, 7) = none)) := by
  have H := c5_bot_match_escrow.1 c5s c5ud 1 7 90 ⟨7, 4, "mode_selection", some 3⟩
    Mode.normal 2 (by decide) (by decide) (by decide) (by norm_num)
    (by norm_num [c5s, get_user_balance, dget]) (by decide)
  have H2 := c5_bot_match_escrow.2 c3s 1 7 20 1 [5, 1, 1] 104 (1, 7, Player.bot)
    (by decide)
  exact ⟨⟨by norm_num, by norm_num [c5s, get_user_balance, dget], by decide,
    H.1, H.2.1, H.2.2.2.1, H.2.2.2.2.2.1⟩, H2⟩

/-- Darts setup of user 10 (wager 1, normal, first to 1), awaiting a username,
for the C6 scenario. -/
def c6ud10 : UserData :=
  ⟨some ⟨10, 1, "mode_selection", none⟩, some Mode.normal, some 1, true, none, none⟩

/-- Darts setup of user 12 for the C6 scenario. -/
def c6ud12 : UserData :=
  ⟨some ⟨12, 1, "mode_selection", none⟩, some Mode.normal, some 1, true, none, none⟩

/-- Darts setup of user 13 for the C6 scenario. -/
def c6ud13 : UserData :=
  ⟨some ⟨13, 1, "mode_selection", none⟩, some Mode.normal, some 1, true, none, none⟩

/-- Initial C6 state: four funded users, no games, no pending challenges. -/
def c6s0 : St :=
  { balances := [(10, 10), (11, 10), (12, 10), (13, 10)], games := [],
    userGames := [], lastGames := [], pendingChallenges := [], coinGames := [] }

/-- C6 state after user 10 challenges user 11 (allocated id 1). -/
def c6s1 : St := propose_run c6s0 c6ud10 1 10 11

/-- C6 state after user 12 challenges user 13 (allocated id 2). -/
def c6s2 : St := propose_run c6s1 c6ud12 1 12 13

/-- C6 state after user 11 accepts challenge 1: challenge 2 remains pending. -/
def c6s3 : St := dart_accept_run c6s2 emptyUD 1 11 1 50

/-- C6 state after user 13 challenges user 12: the allocated id
`len(pending) + 1 = 2` collides with the pending challenge 2. -/
def c6s4 : St := propose_run c6s3 c6ud13 1 13 12

/-- Claim C6 is violated by the code (code bug): the id allocated by a propose
is `len(pending_challenges) + 1`, which is not fresh once a challenge has been
removed out of order.  In the concrete reachable scenario propose(1),
propose(2), accept(1), propose: the final propose allocates id 2 while
challenge 2 (12 challenging 13) is still pending, and storing the new
challenge (13 challenging 12) overwrites it — the pending table's size does
not grow and the old challenge is lost. -/
theorem c6_challenge_id_collision :
    propose_id c6s0 c6ud10 1 10 11 = 1 ∧
    propose_id c6s1 c6ud12 1 12 13 = 2 ∧
    c6s3.pendingChallenges.length = 1 ∧
    dget c6s3.pendingChallenges 2 = some ⟨12, 13, Mode.normal, 1, 1⟩ ∧
    propose_id c6s3 c6ud13 1 13 12 = c6s3.pendingChallenges.length + 1 ∧
    propose_id c6s3 c6ud13 1 13 12 = 2 ∧
    (dget c6s3.pendingChallenges (propose_id c6s3 c6ud13 1 13 12)).isSome = true ∧
    dget c6s4.pendingChallenges 2 = some ⟨13, 12, Mode.normal, 1, 1⟩ ∧
    c6s4.pendingChallenges.length = c6s3.pendingChallenges.length := by
  refine ⟨by decide, by decide, by decide, by decide, by decide, by decide, by decide,
    by decide, by decide⟩

/-- C8 state: user 7 at balance 3, whose most recent session was a bot match
at wager 5. -/
def c8s0 : St :=
  { balances := [(7, 3)], games := [], userGames := [],
    lastGames := [(1, [(7, ⟨Player.bot, Mode.normal, 1, 5⟩)])],
    pendingChallenges := [], coinGames := [] }

/-- Claim C8 is violated by the code (code bug): `dart_play_again` with a bot
prior opponent re-invokes the bot-match start with identical parameters but
performs no balance re-validation.  With balance 3 and prior wager 5 it does
not fail with an insufficient-balance rejection: it registers the session,
debits the wager and leaves the balance at -2.  The sibling `dart_double`
path at the same state does re-validate and rejects. -/
theorem c8_play_again_skips_balance_check :
    getLastGame c8s0 1 7 = some ⟨Player.bot, Mode.normal, 1, 5⟩ ∧
    get_user_balance c8s0 7 = 3 ∧
    ((3 : Rat) < 5) ∧
    isOkResult (dart_play_again c8s0 emptyUD 1 7 50) = true ∧
    dget (play_again_run c8s0 emptyUD 1 7 50).userGames (1, 7) =
      some (1, 7, Player.bot) ∧
    (dget (play_again_run c8s0 emptyUD 1 7 50).games (1, 7, Player.bot)).map
      Game.bet = some 5 ∧
    get_user_balance (play_again_run c8s0 emptyUD 1 7 50) 7 = -2 ∧
    dart_double c8s0 emptyUD 1 7 50 = .error .insufficientBalance := by
  refine ⟨by decide, by decide, by norm_num, by decide, by decide, by decide, ?_, ?_⟩
  · norm_num [c8s0, emptyUD, play_again_run, dart_play_again, start_game_against_bot,
              getLastGame, get_user_balance, update_user_balance, dget, dinsert, derase]
  · norm_num [c8s0, emptyUD, dart_double, getLastGame, get_user_balance, dget]

end WK
